import Mathlib

/-!
Shallow embedding of `src/App.py` (a small Flask registration and
authentication backend). Pure helper functions are translated directly;
the SQLite store and the global rate-limit dictionary become explicit
state threaded through the handlers; the Python exception raised by
`int(...)` on a malformed string becomes an `Except` error value.
Character classes (`\w`, `\d`, whitespace) are modelled at the ASCII
fragment that every claim exercises.
-/

namespace App

/-- The double-quote character, written by code point to keep the
development free of quote-literal pitfalls. -/
def quoteChar : Char := Char.ofNat 34

/-- The single-quote character, written by code point. -/
def aposChar : Char := Char.ofNat 39

/-- Python `str.strip()`: remove leading and trailing whitespace. -/
def pyStrip (cs : List Char) : List Char :=
  ((cs.dropWhile Char.isWhitespace).reverse.dropWhile Char.isWhitespace).reverse

/-- One character of `html.escape` (quote=True): `&` becomes `&amp;`,
`<` becomes `&lt;`, `>` becomes `&gt;`, the double quote becomes
`&quot;`, the single quote becomes `&#x27;`, anything else is kept.
Because CPython replaces `&` first, the whole escape is exactly this
map applied characterwise to the original text. -/
def htmlEscapeChar (c : Char) : List Char :=
  if c = '&' then "&amp;".data
  else if c = '<' then "&lt;".data
  else if c = '>' then "&gt;".data
  else if c = quoteChar then "&quot;".data
  else if c = aposChar then "&#x27;".data
  else [c]

/-- `html.escape(s, quote=True)`. -/
def htmlEscape (cs : List Char) : List Char := cs.flatMap htmlEscapeChar

/-- The character class of the sanitizer regex: `;`, double quote, single quote. -/
def isSqlChar (c : Char) : Bool := c == ';' || c == quoteChar || c == aposChar

/-- The `re.sub` call of `sanitizar`: drop every `;`, double quote and
single quote. -/
def removeSqlChars (cs : List Char) : List Char := cs.filter (fun c => !(isSqlChar c))

/-- `sanitizar` from `src/App.py`: empty (falsy) input gives the empty
string; otherwise strip surrounding whitespace, HTML-escape, then strip
the literal `;`, `"` and single-quote characters. -/
def sanitizar (s : String) : String :=
  if s = "" then ""
  else ⟨removeSqlChars (htmlEscape (pyStrip s.data))⟩

/-- The regex class `\w` (ASCII fragment): letters, digits, underscore. -/
def wordChar (c : Char) : Bool := c.isAlphanum || c == '_'

/-- The regex class `[\w\.-]`. -/
def localChar (c : Char) : Bool := wordChar c || c == '.' || c == '-'

/-- `validar_email`: the anchored regex match for local-part, `@`, domain,
dot, TLD over the classes `[\w\.-]` and `\w`.
The classes exclude `@`, so a match forces exactly one `@`; the TLD part
`\w+` excludes dots, so the separating dot of a match is the last dot of
the domain part.  Python `$` also matches just before one final newline,
so a single trailing newline is dropped first. -/
def validar_email (s : String) : Bool :=
  let cs := if s.data.getLast? = some '\n' then s.data.dropLast else s.data
  match cs.splitOn '@' with
  | [lp, dom] =>
      !lp.isEmpty && lp.all localChar &&
      dom.any (fun c => c == '.') &&
      (let tld := (dom.reverse.takeWhile (fun c => c != '.')).reverse
       let host := dom.take (dom.length - tld.length - 1)
       !tld.isEmpty && tld.all wordChar && !host.isEmpty && host.all localChar)
  | _ => false

/-- The `re.sub` call dropping the class `\D`: keep only decimal digits. -/
def stripNonDigits (cs : List Char) : List Char := cs.filter Char.isDigit

/-- `int(c)` for a single digit character. -/
def digitVal (c : Char) : Nat := c.toNat - 48

/-- `soma` of `validar_cpf`: `sum(int(cpf[j])*((i+1)-j) for j in range(i))`. -/
def cpfSoma (d : List Nat) (i : Nat) : Nat :=
  ((List.range i).map (fun j => d.getD j 0 * ((i + 1) - j))).sum

/-- `digito` of `validar_cpf`: `11 - soma % 11`, replaced by 0 when over 9. -/
def cpfDigito (d : List Nat) (i : Nat) : Nat :=
  let dig := 11 - cpfSoma d i % 11
  if dig > 9 then 0 else dig

/-- `validar_cpf` from `src/App.py`: strip non-digits; reject unless the
result has exactly 11 digits and they are not all the first digit repeated;
then check the two weighted check digits at positions 9 and 10. -/
def validar_cpf (s : String) : Bool :=
  let cs := stripNonDigits s.data
  if cs.length ≠ 11 then false
  else if cs = List.replicate 11 (cs.headD ' ') then false
  else
    let d := cs.map digitVal
    (cpfDigito d 9 == d.getD 9 0) && (cpfDigito d 10 == d.getD 10 0)

/-- `validar_telefone`: strip non-digits, accept exactly 10 or 11 digits. -/
def validar_telefone (s : String) : Bool :=
  (stripNonDigits s.data).length == 10 || (stripNonDigits s.data).length == 11

/-- A raised Python exception escaping a handler. -/
inductive PyExc
  | valueError
deriving DecidableEq, Repr

instance {ε α : Type} [DecidableEq ε] [DecidableEq α] : DecidableEq (Except ε α) :=
  fun a b =>
    match a, b with
    | .ok x, .ok y => decidable_of_iff (x = y) (by simp)
    | .ok _, .error _ => isFalse (fun h => Except.noConfusion h)
    | .error _, .ok _ => isFalse (fun h => Except.noConfusion h)
    | .error x, .error y => decidable_of_iff (x = y) (by simp)

/-- The value of a digit string: `foldl` base-10 accumulation. -/
def natOfDigits (cs : List Char) : Nat :=
  cs.foldl (fun a c => a * 10 + digitVal c) 0

/-- Python `int(s)` on a string: surrounding whitespace is allowed, then an
optional sign and one or more decimal digits; anything else raises
`ValueError` (modelled as `none`). -/
def pyInt? (s : String) : Option Int :=
  let cs := pyStrip s.data
  let core : Option (Bool × List Char) :=
    match cs with
    | '-' :: rest => some (true, rest)
    | '+' :: rest => some (false, rest)
    | _ => some (false, cs)
  match core with
  | some (neg, ds) =>
      if ds.isEmpty || !ds.all Char.isDigit then none
      else if neg then some (-(natOfDigits ds : Int)) else some (natOfDigits ds)
  | none => none

/-! ## Rate limiter

`request_times` is a `defaultdict(list)` from client address to the list of
request timestamps; `rate_limit(max_requests, window)` wraps a handler: it
first writes back the pruned list, then rejects with 429 when the pruned
list already has `max_requests` entries, and otherwise appends `now` and
runs the handler.  Timestamps are modelled as integers. -/

/-- The global `request_times` mapping, one timestamp list per address. -/
abbrev RateMap : Type := String → List Int

/-- `defaultdict(list)`: every address starts with the empty list. -/
def emptyRateMap : RateMap := fun _ => []

/-- The list comprehension `[t for t in request_times[ip] if now - t < window]`. -/
def pruneWindow (now window : Int) (ts : List Int) : List Int :=
  ts.filter (fun t => now - t < window)

/-- One admission decision of the `rate_limit` decorator for address `ip` at
time `now`: returns whether the wrapped handler runs, and the updated
`request_times` mapping. -/
def rate_limit (maxRequests : Nat) (window : Int) (ip : String) (now : Int)
    (m : RateMap) : Bool × RateMap :=
  let ts := pruneWindow now window (m ip)
  if maxRequests ≤ ts.length then
    (false, fun k => if k = ip then ts else m k)
  else
    (true, fun k => if k = ip then ts ++ [now] else m k)

/-- A sequence of admission decisions for one address at the given times. -/
def admitSeq (maxRequests : Nat) (window : Int) (ip : String) :
    List Int → RateMap → List Bool × RateMap
  | [], m => ([], m)
  | t :: ts, m =>
      let r := rate_limit maxRequests window ip t m
      let rest := admitSeq maxRequests window ip ts r.2
      (r.1 :: rest.1, rest.2)

/-! ## Credential hashing

`generate_password_hash` and `check_password_hash` come from werkzeug, an
external capability per the spec. A hash is modelled as an opaque token
remembering which plaintext it was derived from; verification succeeds
exactly when the supplied password is that plaintext. The token is a
distinct type from `String`, so a record field holding a `PwHash` cannot
hold the plaintext itself. -/

/-- A salted one-way password hash (external werkzeug capability). -/
structure PwHash where
  gen ::
  hashedFrom : String
deriving DecidableEq, Repr

/-- `generate_password_hash` (werkzeug). -/
def generate_password_hash (senha : String) : PwHash := PwHash.gen senha

/-- `check_password_hash` (werkzeug): verification against the stored
hash succeeds exactly for the password the hash was generated from. -/
def check_password_hash (h : PwHash) (senha : String) : Bool :=
  h.hashedFrom == senha

/-! ## Store and handlers

The SQLite table `clientes` becomes a list of records in insertion order
together with the next `AUTOINCREMENT` id. -/

/-- One row of the `clientes` table. -/
structure Cliente where
  id : Nat
  nome : String
  idade : Int
  email : String
  telefone : String
  endereco : String
  genero : String
  cpf : String
  senha : PwHash
deriving DecidableEq, Repr

/-- The `clientes.db` store: rows in insertion order, next autoincrement id. -/
structure DB where
  clientes : List Cliente
  nextId : Nat
deriving DecidableEq, Repr

/-- The empty store right after `criar_bancos`. -/
def emptyDB : DB := ⟨[], 1⟩

/-- The form fields of `POST /cadastrar_cliente`; an absent field
(`request.form.get` returning `None`) is modelled as the empty string,
which is falsy exactly like `None` in the `all([...])` check and in
`sanitizar`. -/
structure Form where
  nome : String
  idade : String
  email : String
  telefone : String
  endereco : String
  genero : String
  cpf : String
  senha : String
deriving DecidableEq, Repr

/-- A JSON body `{status, mensagem}` together with the HTTP status code. -/
structure Resp where
  status : String
  mensagem : String
  code : Nat
deriving DecidableEq, Repr

/-- The truthiness check `all([nome, idade, email, telefone, endereco,
genero, cpf, senha])` on the local variables of the handler. -/
def camposPreenchidos (nome idade email telefone endereco genero cpf senha : String) : Bool :=
  nome != "" && idade != "" && email != "" && telefone != "" &&
  endereco != "" && genero != "" && cpf != "" && senha != ""

/-- The duplicate query `SELECT id FROM clientes WHERE email=? OR cpf=?`
returned at least one row. -/
def duplicado (db : DB) (email cpf : String) : Bool :=
  db.clientes.any (fun c => c.email == email || c.cpf == cpf)

/-- The handler `cadastrar_cliente` (rate-limit decorator aside): sanitize
the free-text fields, keep `idade` and `senha` raw, check presence, run
the email, phone and national-id validators in order, check duplicates,
hash the password and insert. `int(idade)` failing raises an uncaught
`ValueError`, modelled as `Except.error`. -/
def cadastrar_cliente (form : Form) (db : DB) : Except PyExc (Resp × DB) :=
  let nome := sanitizar form.nome
  let idade := form.idade
  let email := sanitizar form.email
  let telefone := sanitizar form.telefone
  let endereco := sanitizar form.endereco
  let genero := sanitizar form.genero
  let cpf := sanitizar form.cpf
  let senha := form.senha
  if !camposPreenchidos nome idade email telefone endereco genero cpf senha then
    .ok (⟨"erro", "Todos os campos são obrigatórios", 400⟩, db)
  else if !validar_email email then .ok (⟨"erro", "Email inválido", 400⟩, db)
  else if !validar_telefone telefone then .ok (⟨"erro", "Telefone inválido", 400⟩, db)
  else if !validar_cpf cpf then .ok (⟨"erro", "CPF inválido", 400⟩, db)
  else
    let senha_hash := generate_password_hash senha
    if duplicado db email cpf then
      .ok (⟨"erro", "Email ou CPF já cadastrado", 400⟩, db)
    else
      match pyInt? idade with
      | none => .error .valueError
      | some n =>
          .ok (⟨"ok", "Cliente cadastrado com sucesso", 200⟩,
               ⟨db.clientes ++ [⟨db.nextId, nome, n, email, telefone, endereco,
                                genero, cpf, senha_hash⟩],
                db.nextId + 1⟩)

/-- One entry of the listing: the selected columns
`id,nome,email,telefone,cpf,genero` and nothing else. -/
structure ClienteSummary where
  id : Nat
  nome : String
  email : String
  telefone : String
  cpf : String
  genero : String
deriving DecidableEq, Repr

/-- The column selection of `clientes_json`. -/
def toSummary (c : Cliente) : ClienteSummary :=
  ⟨c.id, c.nome, c.email, c.telefone, c.cpf, c.genero⟩

/-- Insert a row into a list kept in descending id order. -/
def insertDescId (c : Cliente) : List Cliente → List Cliente
  | [] => [c]
  | d :: ds => if d.id ≤ c.id then c :: d :: ds else d :: insertDescId c ds

/-- `ORDER BY id DESC`. -/
def sortByIdDesc : List Cliente → List Cliente
  | [] => []
  | c :: cs => insertDescId c (sortByIdDesc cs)

/-- The handler `clientes_json` (rate-limit decorator aside):
`SELECT id,nome,email,telefone,cpf,genero FROM clientes ORDER BY id DESC`. -/
def clientes_json (db : DB) : List ClienteSummary :=
  (sortByIdDesc db.clientes).map toSummary

/-- The handler `login_cliente` (rate-limit decorator aside): sanitize the
email, fetch the first row with that email, answer the same generic 401
when no row exists or the password does not verify; on success set the
session to the id and name of the row. -/
def login_cliente (email senha : String) (db : DB) : Resp × Option (Nat × String) :=
  let email := sanitizar email
  match db.clientes.find? (fun c => c.email == email) with
  | none => (⟨"erro", "Email ou senha incorretos", 401⟩, none)
  | some cliente =>
      if !check_password_hash cliente.senha senha then
        (⟨"erro", "Email ou senha incorretos", 401⟩, none)
      else
        (⟨"ok", "Login realizado com sucesso", 200⟩, some (cliente.id, cliente.nome))

/-! ## Routed endpoints

The decorator `@rate_limit(max,window)` shares the one global
`request_times` mapping across all routes; each route only chooses its own
`(max, window)` pair: registration and login use `(10, 60)`, the listing
uses `(30, 60)`. -/

/-- What a routed call can send back over HTTP. -/
inductive HttpResult
  | json (r : Resp)
  | list (l : List ClienteSummary)
  | exc (e : PyExc)
deriving DecidableEq, Repr

/-- The 429 body of the decorator. -/
def tooMany : Resp := ⟨"erro", "Muitas requisições", 429⟩

/-- `POST /cadastrar_cliente` with its `@rate_limit(10,60)` decorator. -/
def route_cadastrar (ip : String) (now : Int) (form : Form)
    (rm : RateMap) (db : DB) : HttpResult × RateMap × DB :=
  match rate_limit 10 60 ip now rm with
  | (false, rm2) => (.json tooMany, rm2, db)
  | (true, rm2) =>
      match cadastrar_cliente form db with
      | .error e => (.exc e, rm2, db)
      | .ok (r, db2) => (.json r, rm2, db2)

/-- `GET /clientes_json` with its `@rate_limit(30,60)` decorator. -/
def route_clientes_json (ip : String) (now : Int)
    (rm : RateMap) (db : DB) : HttpResult × RateMap × DB :=
  match rate_limit 30 60 ip now rm with
  | (false, rm2) => (.json tooMany, rm2, db)
  | (true, rm2) => (.list (clientes_json db), rm2, db)

/-- Repeated `GET /clientes_json` calls from one address at the given times. -/
def repListar (ip : String) : List Int → RateMap → DB → List HttpResult × RateMap × DB
  | [], rm, db => ([], rm, db)
  | t :: ts, rm, db =>
      let r := route_clientes_json ip t rm db
      let rest := repListar ip ts r.2.1 r.2.2
      (r.1 :: rest.1, rest.2)

/-! ## Specification-side formulation of the national-id validator

Written from the words of the spec, to be compared with `validar_cpf`
(which is written from the source). -/

/-- The weighted sum of the spec: for check-digit position `i`,
`sum_{j=0}^{i-1} digit[j] * ((i+1)-j)`. -/
def checkDigitSum (d : List Nat) (i : Nat) : Nat :=
  ∑ j ∈ Finset.range i, d.getD j 0 * ((i + 1) - j)

/-- The expected check digit of the spec:
`0` when `11 - (sum mod 11)` exceeds 9, else `11 - (sum mod 11)`. -/
def expectedDigit (d : List Nat) (i : Nat) : Nat :=
  if 11 - checkDigitSum d i % 11 > 9 then 0 else 11 - checkDigitSum d i % 11

/-- The spec for the national-id validator: strip non-digit characters,
require exactly 11 digits that are not all identical, and require the two
expected check digits to equal the actual digits at positions 9 and 10. -/
def validate_national_id_spec (s : String) : Prop :=
  let cs := s.data.filter Char.isDigit
  let d := cs.map digitVal
  d.length = 11 ∧ (¬ ∃ c0, cs = List.replicate 11 c0) ∧
  expectedDigit d 9 = d.getD 9 0 ∧ expectedDigit d 10 = d.getD 10 0

/-! ## Concrete fixtures used by the scenario parts of the claims -/

/-- A registration form whose every field passes validation. -/
def form1 : Form :=
  ⟨"Ana", "25", "a@b.com", "(11) 91234-5678", "Rua 1", "F", "529.982.247-25", "s3cret"⟩

/-- A second fully valid form: distinct email and distinct national id. -/
def form2 : Form :=
  ⟨"Bia", "30", "c@d.com", "1234567890", "Rua 2", "F", "11144477735", "pw2"⟩

/-- A fully valid form sharing the email of `form1` with a different valid
national id. -/
def form1dup : Form :=
  ⟨"Carla", "31", "a@b.com", "1234567890", "Rua 3", "F", "11144477735", "pw3"⟩

/-- A form that passes every validator but whose age is not numeric. -/
def badAgeForm : Form :=
  ⟨"Ana", "abc", "a@b.com", "1234567890", "Rua 1", "F", "52998224725", "s3cret"⟩

/-- The row the successful registration of `form1` inserts. -/
def cliente1 : Cliente :=
  ⟨1, "Ana", 25, "a@b.com", "(11) 91234-5678", "Rua 1", "F", "529.982.247-25",
   PwHash.gen "s3cret"⟩

/-- A store holding exactly `cliente1`. -/
def db1 : DB := ⟨[cliente1], 2⟩

/-- The row the successful registration of `form2` into `db1` inserts. -/
def cliente2 : Cliente :=
  ⟨2, "Bia", 30, "c@d.com", "1234567890", "Rua 2", "F", "11144477735",
   PwHash.gen "pw2"⟩

/-- The store after registering `form1` and then `form2`. -/
def db2 : DB := ⟨[cliente1, cliente2], 3⟩

/-! # Theorems -/

/-- A sum over `List.range` is the matching `Finset.range` sum. -/
theorem sum_list_range (f : Nat → Nat) (n : Nat) :
    ((List.range n).map f).sum = ∑ j ∈ Finset.range n, f j := by
  induction n with
  | zero => simp
  | succ n ih =>
      rw [List.range_succ, List.map_append, List.sum_append, Finset.sum_range_succ, ih]
      simp

/-- The loop sum of the source equals the sum written in the spec. -/
theorem cpfSoma_eq_checkDigitSum (d : List Nat) (i : Nat) :
    cpfSoma d i = checkDigitSum d i :=
  sum_list_range _ i

/-- The check digit of the source equals the expected digit of the spec. -/
theorem cpfDigito_eq_expectedDigit (d : List Nat) (i : Nat) :
    cpfDigito d i = expectedDigit d i := by
  unfold cpfDigito expectedDigit
  rw [cpfSoma_eq_checkDigitSum]

/-- For an 11-character list, being some character repeated 11 times is the
same as being its own first character repeated 11 times. -/
theorem replicate_iff_headD {cs : List Char} (hlen : cs.length = 11) :
    (∃ c0, cs = List.replicate 11 c0) ↔ cs = List.replicate 11 (cs.headD ' ') := by
  constructor
  · rintro ⟨c0, rfl⟩
    simp [List.replicate_succ]
  · intro h
    exact ⟨_, h⟩

/-- `validar_cpf` agrees with the validator the spec describes. -/
theorem validar_cpf_characterization (s : String) :
    validar_cpf s = true ↔ validate_national_id_spec s := by
  simp only [validar_cpf, stripNonDigits, validate_national_id_spec]
  by_cases hlen : (s.data.filter Char.isDigit).length = 11
  · by_cases hrep : s.data.filter Char.isDigit
        = List.replicate 11 ((s.data.filter Char.isDigit).headD ' ')
    · rw [if_neg (by simp [hlen]), if_pos hrep]
      simp only [Bool.false_eq_true, false_iff]
      rintro ⟨-, hne, -, -⟩
      exact hne ⟨_, hrep⟩
    · rw [if_neg (by simp [hlen]), if_neg hrep]
      simp only [Bool.and_eq_true, beq_iff_eq, cpfDigito_eq_expectedDigit]
      constructor
      · rintro ⟨h9, h10⟩
        refine ⟨by simpa using hlen, ?_, h9, h10⟩
        rintro ⟨c0, hc⟩
        exact hrep ((replicate_iff_headD hlen).mp ⟨c0, hc⟩)
      · rintro ⟨-, -, h9, h10⟩
        exact ⟨h9, h10⟩
  · rw [if_pos hlen]
    simp only [Bool.false_eq_true, false_iff]
    rintro ⟨hl, -⟩
    exact hlen (by simpa using hl)

/-- C1: for every input string the national-id validator strips non-digit
characters, rejects unless the result is exactly 11 not-all-identical digits,
and otherwise accepts exactly when the two weighted check digits computed as
the spec states equal the actual digits at positions 9 and 10; it accepts
"52998224725" and rejects "52998224724". -/
theorem C1_national_id_validator :
    (∀ s : String, validar_cpf s = true ↔ validate_national_id_spec s) ∧
    validar_cpf "52998224725" = true ∧ validar_cpf "52998224724" = false :=
  ⟨validar_cpf_characterization, by decide, by decide⟩

/-- C2 counterexample: a rejected call is not always a no-op on the stored
sequence. With limit 3 and window 60, an address holding timestamps
`[0, 50, 51, 52]` is rejected at time 61, and the stored sequence afterwards
is the pruned `[50, 51, 52]`, not the original sequence: the code writes the
pruned list back before deciding. -/
theorem C2_rejected_call_mutates :
    (rate_limit 3 60 "c" 61 (fun k => if k = "c" then [0, 50, 51, 52] else [])).1
      = false ∧
    (rate_limit 3 60 "c" 61 (fun k => if k = "c" then [0, 50, 51, 52] else [])).2 "c"
      ≠ [0, 50, 51, 52] := by
  decide

/-- C2 amended: each call prunes the timestamps outside the window and writes
the pruned list back; it rejects, appending nothing, exactly when the pruned
list already holds `max_requests` timestamps, and otherwise appends `now` and
admits; other addresses are untouched. With limit 3 and window 60, four calls
within one second yield admit, admit, admit, reject, and a call after the
window has elapsed is admitted again. -/
theorem C2_rate_limiter_behavior :
    (∀ (m : RateMap) (ip : String) (now window : Int) (maxRequests : Nat),
      ((rate_limit maxRequests window ip now m).1 = true ↔
        (pruneWindow now window (m ip)).length < maxRequests) ∧
      ((rate_limit maxRequests window ip now m).1 = false →
        (rate_limit maxRequests window ip now m).2 ip =
          pruneWindow now window (m ip)) ∧
      ((rate_limit maxRequests window ip now m).1 = true →
        (rate_limit maxRequests window ip now m).2 ip =
          pruneWindow now window (m ip) ++ [now]) ∧
      (∀ k, k ≠ ip → (rate_limit maxRequests window ip now m).2 k = m k)) ∧
    (admitSeq 3 60 "a" [0, 0, 0, 1] emptyRateMap).1 =
      [true, true, true, false] ∧
    (admitSeq 3 60 "a" [0, 0, 0, 1, 61] emptyRateMap).1 =
      [true, true, true, false, true] := by
  refine ⟨?_, by decide, by decide⟩
  intro m ip now window maxRequests
  rcases Nat.lt_or_ge (pruneWindow now window (m ip)).length maxRequests with h | h
  · have h2 : ¬ maxRequests ≤ (pruneWindow now window (m ip)).length :=
      Nat.not_le.mpr h
    simp only [rate_limit, if_neg h2]
    refine ⟨by simp [h], by simp, fun _ => by simp, fun k hk => by simp [hk]⟩
  · simp only [rate_limit, if_pos h]
    refine ⟨?_, fun _ => by simp, by simp, fun k hk => by simp [hk]⟩
    simp only [Bool.false_eq_true, false_iff, Nat.not_lt]
    exact h

/-- The characters `html.escape` emits never include a raw `<` or `>`. -/
theorem htmlEscapeChar_no_angle (c : Char) :
    ∀ x ∈ htmlEscapeChar c, x ≠ '<' ∧ x ≠ '>' := by
  unfold htmlEscapeChar
  split_ifs with h1 h2 h3 h4 h5
  · decide
  · decide
  · decide
  · decide
  · decide
  · intro x hx
    simp only [List.mem_singleton] at hx
    subst hx
    exact ⟨h2, h3⟩

/-- Unfolding `htmlEscape` over a cons cell. -/
theorem htmlEscape_cons (c : Char) (cs : List Char) :
    htmlEscape (c :: cs) = htmlEscapeChar c ++ htmlEscape cs := rfl

/-- No raw `<` or `>` in any escaped text. -/
theorem mem_htmlEscape_no_angle {x : Char} {l : List Char}
    (hx : x ∈ htmlEscape l) : x ≠ '<' ∧ x ≠ '>' := by
  unfold htmlEscape at hx
  rcases List.mem_flatMap.mp hx with ⟨c, -, hc⟩
  exact htmlEscapeChar_no_angle c x hc

/-- Escaping text whose characters all escape to themselves is the identity. -/
theorem htmlEscape_of_plain (l : List Char)
    (h : ∀ c ∈ l, htmlEscapeChar c = [c]) : htmlEscape l = l := by
  induction l with
  | nil => rfl
  | cons c cs ih =>
      rw [htmlEscape_cons, h c (List.mem_cons_self c cs),
        ih (fun d hd => h d (List.mem_cons_of_mem c hd))]
      rfl

/-- The characters of a non-empty sanitizer output. -/
theorem sanitizar_data_eq (s : String) (h : ¬ s = "") :
    (sanitizar s).data = removeSqlChars (htmlEscape (pyStrip s.data)) := by
  rw [sanitizar, if_neg h]

/-- Sanitizer output never holds `;`, a double quote or a single quote. -/
theorem sanitizar_no_sql (s : String) :
    ∀ x ∈ (sanitizar s).data, isSqlChar x = false := by
  intro x hx
  by_cases h : s = ""
  · subst h
    simp [sanitizar] at hx
  · rw [sanitizar_data_eq s h] at hx
    unfold removeSqlChars at hx
    have := List.of_mem_filter hx
    simpa using this

/-- Sanitizer output never holds a raw `<` or `>`. -/
theorem sanitizar_no_angle (s : String) :
    ∀ x ∈ (sanitizar s).data, x ≠ '<' ∧ x ≠ '>' := by
  intro x hx
  by_cases h : s = ""
  · subst h
    simp [sanitizar] at hx
  · rw [sanitizar_data_eq s h] at hx
    unfold removeSqlChars at hx
    exact mem_htmlEscape_no_angle (List.mem_of_mem_filter hx)

/-- C3 counterexample: the sanitizer is not idempotent. `sanitizar "&"`
is `"&amp"` (escape to `"&amp;"`, then the `;` is stripped), and sanitizing
that again re-escapes the ampersand, giving `"&ampamp"`. -/
theorem C3_sanitize_not_idempotent :
    sanitizar (sanitizar "&") ≠ sanitizar "&" := by decide

/-- C3 amended: the sanitizer is total but not idempotent in general; a second
application leaves the output unchanged whenever that output holds no
ampersand and carries no surrounding whitespace. -/
theorem C3_sanitize_conditionally_idempotent (s : String)
    (hamp : (sanitizar s).data.all (fun c => c != '&') = true)
    (hstrip : pyStrip (sanitizar s).data = (sanitizar s).data) :
    sanitizar (sanitizar s) = sanitizar s := by
  by_cases ht : sanitizar s = ""
  · rw [ht]
    rfl
  · have hplain : ∀ c ∈ (sanitizar s).data, htmlEscapeChar c = [c] := by
      intro c hc
      have hsql := sanitizar_no_sql s c hc
      have hang := sanitizar_no_angle s c hc
      have hampc : ¬ c = '&' := by
        have := List.all_eq_true.mp hamp c hc
        simpa using this
      simp only [isSqlChar, Bool.or_eq_false_iff, beq_eq_false_iff_ne, ne_eq] at hsql
      unfold htmlEscapeChar
      rw [if_neg hampc, if_neg hang.1, if_neg hang.2, if_neg hsql.1.2,
        if_neg hsql.2]
    have hrem : removeSqlChars (sanitizar s).data = (sanitizar s).data := by
      unfold removeSqlChars
      refine List.filter_eq_self.mpr (fun a ha => ?_)
      simp [sanitizar_no_sql s a ha]
    show (if sanitizar s = "" then ""
          else String.mk (removeSqlChars (htmlEscape (pyStrip (sanitizar s).data))))
        = sanitizar s
    rw [if_neg ht, hstrip, htmlEscape_of_plain _ hplain, hrem]

/-- Witness for the amended C3 statement at the input "abc". -/
theorem C3_sanitize_conditionally_idempotent_witness :
    sanitizar (sanitizar "abc") = sanitizar "abc" :=
  C3_sanitize_conditionally_idempotent "abc" (by decide) (by decide)

/-- C4: a login with an email matching no record and a login with an existing
email but a password that does not verify produce identical responses — the
same generic message, the same 401 code, and no session in either case. -/
theorem C4_login_indistinguishable (db : DB) (e1 p1 e2 p2 : String) (c : Cliente)
    (h1 : db.clientes.find? (fun r => r.email == sanitizar e1) = none)
    (h2 : db.clientes.find? (fun r => r.email == sanitizar e2) = some c)
    (h3 : check_password_hash c.senha p2 = false) :
    login_cliente e1 p1 db = login_cliente e2 p2 db ∧
    login_cliente e1 p1 db = (⟨"erro", "Email ou senha incorretos", 401⟩, none) := by
  simp only [login_cliente, h1, h2, h3]
  simp

/-- Witness for C4: one stored client, an unknown email versus the stored
email with a wrong password. -/
theorem C4_login_indistinguishable_witness :
    login_cliente "x@y.com" "pw" db1 = login_cliente "a@b.com" "wrong" db1 ∧
    login_cliente "x@y.com" "pw" db1 =
      (⟨"erro", "Email ou senha incorretos", 401⟩, none) :=
  C4_login_indistinguishable db1 "x@y.com" "pw" "a@b.com" "wrong" cliente1
    (by decide) (by decide) (by decide)

/-- C5: a successful registration appends a record whose password field is
the salted hash of the submitted password exactly as received — not of its
sanitized form — and login succeeds exactly when the stored hash verifies
against the supplied password; the password field of the record has hash
type, so no plaintext is stored. -/
theorem C5_password_hashing :
    (∀ (form : Form) (db : DB) (resp : Resp) (db2 : DB),
        cadastrar_cliente form db = .ok (resp, db2) → resp.status = "ok" →
        ∃ c : Cliente, db2.clientes = db.clientes ++ [c] ∧
          c.senha = generate_password_hash form.senha ∧
          (¬ sanitizar form.senha = form.senha →
            ¬ c.senha = generate_password_hash (sanitizar form.senha))) ∧
    (∀ (db : DB) (email senha : String),
        (login_cliente email senha db).1.status = "ok" ↔
          ∃ c : Cliente,
            db.clientes.find? (fun r => r.email == sanitizar email) = some c ∧
            check_password_hash c.senha senha = true) := by
  constructor
  · intro form db resp db2 h hok
    simp only [cadastrar_cliente] at h
    repeat' split at h
    · simp only [Except.ok.injEq, Prod.mk.injEq] at h
      obtain ⟨hr, -⟩ := h
      rw [← hr] at hok
      exact absurd hok (by decide)
    · simp only [Except.ok.injEq, Prod.mk.injEq] at h
      obtain ⟨hr, -⟩ := h
      rw [← hr] at hok
      exact absurd hok (by decide)
    · simp only [Except.ok.injEq, Prod.mk.injEq] at h
      obtain ⟨hr, -⟩ := h
      rw [← hr] at hok
      exact absurd hok (by decide)
    · simp only [Except.ok.injEq, Prod.mk.injEq] at h
      obtain ⟨hr, -⟩ := h
      rw [← hr] at hok
      exact absurd hok (by decide)
    · simp only [Except.ok.injEq, Prod.mk.injEq] at h
      obtain ⟨hr, -⟩ := h
      rw [← hr] at hok
      exact absurd hok (by decide)
    · exact Except.noConfusion h
    · simp only [Except.ok.injEq, Prod.mk.injEq] at h
      obtain ⟨-, hdb⟩ := h
      subst hdb
      refine ⟨_, rfl, rfl, fun hne heq => ?_⟩
      simp only [generate_password_hash, PwHash.gen.injEq] at heq
      exact hne heq.symm
  · intro db email senha
    simp only [login_cliente]
    cases hfind : db.clientes.find? (fun c => c.email == sanitizar email) with
    | none => simp [hfind]
    | some c =>
        by_cases hch : check_password_hash c.senha senha = true
        · simp [hfind, hch]
        · simp only [Bool.not_eq_true] at hch
          simp [hfind, hch]

/-- C6: when every field is present and valid but some stored record already
matches the email or the national id, registration answers one fixed generic
conflict message with 400 and returns the store unchanged — the same
response whichever of the two fields collided; and registering the same
email twice (different national ids) succeeds once and then conflicts. -/
theorem C6_duplicate_conflict :
    (∀ (form : Form) (db : DB),
        camposPreenchidos (sanitizar form.nome) form.idade (sanitizar form.email)
          (sanitizar form.telefone) (sanitizar form.endereco)
          (sanitizar form.genero) (sanitizar form.cpf) form.senha = true →
        validar_email (sanitizar form.email) = true →
        validar_telefone (sanitizar form.telefone) = true →
        validar_cpf (sanitizar form.cpf) = true →
        (∃ c ∈ db.clientes,
            c.email = sanitizar form.email ∨ c.cpf = sanitizar form.cpf) →
        cadastrar_cliente form db =
          .ok (⟨"erro", "Email ou CPF já cadastrado", 400⟩, db)) ∧
    (cadastrar_cliente form1 emptyDB =
        .ok (⟨"ok", "Cliente cadastrado com sucesso", 200⟩, db1) ∧
     cadastrar_cliente form1dup db1 =
        .ok (⟨"erro", "Email ou CPF já cadastrado", 400⟩, db1)) := by
  refine ⟨?_, by decide, by decide⟩
  intro form db hpres hem htel hcpf hdup
  have hdupb : duplicado db (sanitizar form.email) (sanitizar form.cpf) = true := by
    simp only [duplicado, List.any_eq_true]
    obtain ⟨c, hc, hor⟩ := hdup
    refine ⟨c, hc, ?_⟩
    rcases hor with h | h <;> simp [h]
  simp [cadastrar_cliente, hpres, hem, htel, hcpf, hdupb]

/-- C7: registration checks run in a fixed short-circuiting order — presence
of every field, then the email validator, then the phone validator, then the
national-id validator — the first failure answering its field-specific 400
error; the store argument is returned unchanged and the answer never depends
on it, so no duplicate check or insert happens after a failure. -/
theorem C7_validation_order (form : Form) (db : DB) :
    (camposPreenchidos (sanitizar form.nome) form.idade (sanitizar form.email)
        (sanitizar form.telefone) (sanitizar form.endereco)
        (sanitizar form.genero) (sanitizar form.cpf) form.senha = false →
      cadastrar_cliente form db =
        .ok (⟨"erro", "Todos os campos são obrigatórios", 400⟩, db)) ∧
    (camposPreenchidos (sanitizar form.nome) form.idade (sanitizar form.email)
        (sanitizar form.telefone) (sanitizar form.endereco)
        (sanitizar form.genero) (sanitizar form.cpf) form.senha = true →
      validar_email (sanitizar form.email) = false →
      cadastrar_cliente form db = .ok (⟨"erro", "Email inválido", 400⟩, db)) ∧
    (camposPreenchidos (sanitizar form.nome) form.idade (sanitizar form.email)
        (sanitizar form.telefone) (sanitizar form.endereco)
        (sanitizar form.genero) (sanitizar form.cpf) form.senha = true →
      validar_email (sanitizar form.email) = true →
      validar_telefone (sanitizar form.telefone) = false →
      cadastrar_cliente form db = .ok (⟨"erro", "Telefone inválido", 400⟩, db)) ∧
    (camposPreenchidos (sanitizar form.nome) form.idade (sanitizar form.email)
        (sanitizar form.telefone) (sanitizar form.endereco)
        (sanitizar form.genero) (sanitizar form.cpf) form.senha = true →
      validar_email (sanitizar form.email) = true →
      validar_telefone (sanitizar form.telefone) = true →
      validar_cpf (sanitizar form.cpf) = false →
      cadastrar_cliente form db = .ok (⟨"erro", "CPF inválido", 400⟩, db)) := by
  refine ⟨fun h1 => ?_, fun h1 h2 => ?_, fun h1 h2 h3 => ?_, fun h1 h2 h3 h4 => ?_⟩
  · simp [cadastrar_cliente, h1]
  · simp [cadastrar_cliente, h1, h2]
  · simp [cadastrar_cliente, h1, h2, h3]
  · simp [cadastrar_cliente, h1, h2, h3, h4]

/-- Inserting a row with the smallest id into a descending list appends it. -/
theorem insertDescId_of_lt (c : Cliente) (l : List Cliente)
    (h : ∀ d ∈ l, c.id < d.id) : insertDescId c l = l ++ [c] := by
  induction l with
  | nil => rfl
  | cons d ds ih =>
      have hd := h d (List.mem_cons_self d ds)
      simp only [insertDescId, if_neg (by omega : ¬ d.id ≤ c.id)]
      rw [ih (fun e he => h e (List.mem_cons_of_mem d he))]
      rfl

/-- Sorting a list with strictly increasing ids by id descending reverses it. -/
theorem sortByIdDesc_of_increasing (l : List Cliente)
    (h : List.Pairwise (fun a b => a.id < b.id) l) :
    sortByIdDesc l = l.reverse := by
  induction l with
  | nil => rfl
  | cons c cs ih =>
      rw [List.pairwise_cons] at h
      simp only [sortByIdDesc]
      rw [ih h.2,
        insertDescId_of_lt c cs.reverse (fun d hd => h.1 d (List.mem_reverse.mp hd)),
        List.reverse_cons]

/-- C8: since every insert uses the next autoincrement id, the stored rows
have strictly increasing ids, and `ORDER BY id DESC` is exactly reverse
insertion order — most recently created first. Each listing entry is built by
`toSummary`, which carries exactly id, name, email, phone, national id and
gender and has no password field at all. Registering R1 then R2 lists
[R2, R1]. -/
theorem C8_listing :
    (∀ db : DB, List.Pairwise (fun a b => a.id < b.id) db.clientes →
        clientes_json db = db.clientes.reverse.map toSummary) ∧
    (cadastrar_cliente form1 emptyDB =
        .ok (⟨"ok", "Cliente cadastrado com sucesso", 200⟩, db1) ∧
     cadastrar_cliente form2 db1 =
        .ok (⟨"ok", "Cliente cadastrado com sucesso", 200⟩, db2) ∧
     clientes_json db2 = [toSummary cliente2, toSummary cliente1]) := by
  refine ⟨?_, by decide, by decide, by decide⟩
  intro db h
  unfold clientes_json
  rw [sortByIdDesc_of_increasing _ h]

/-- C9: a registration whose fields all pass validation but whose age is not
numeric makes `int(idade)` raise; the handler has no handler-level catch, so
the exception escapes the handler unformatted instead of being translated
into an error response. -/
theorem C9_age_coercion_uncaught :
    validar_email (sanitizar badAgeForm.email) = true ∧
    validar_telefone (sanitizar badAgeForm.telefone) = true ∧
    validar_cpf (sanitizar badAgeForm.cpf) = true ∧
    pyInt? badAgeForm.idade = none ∧
    cadastrar_cliente badAgeForm emptyDB = .error .valueError := by decide

/-- C10: all rate-limited endpoints share the one per-address timestamp map:
ten admitted listing calls within the window exhaust the registration limit
of 10 as well, so a registration from the same address is then rejected with
429 although zero registration requests happened — while the identical
registration from a fresh map is admitted and succeeds. -/
theorem C10_shared_rate_state :
    (repListar "c" [0, 1, 2, 3, 4, 5, 6, 7, 8, 9] emptyRateMap emptyDB).1 =
      List.replicate 10 (HttpResult.list []) ∧
    (route_cadastrar "c" 10 form1
        (repListar "c" [0, 1, 2, 3, 4, 5, 6, 7, 8, 9] emptyRateMap emptyDB).2.1
        (repListar "c" [0, 1, 2, 3, 4, 5, 6, 7, 8, 9] emptyRateMap emptyDB).2.2).1 =
      .json tooMany ∧
    (route_cadastrar "c" 10 form1 emptyRateMap emptyDB).1 =
      .json ⟨"ok", "Cliente cadastrado com sucesso", 200⟩ := by decide

end App
